import Mathlib

/-!
Verification development for the stale-lead re-engagement pipeline
(src/airtable_utils.py, src/email_generator.py).

The Python code is shallowly embedded: Python dicts of string fields become
association lists, the wall-clock date and the two external collaborators
(record store, text-generation API) become explicit parameters, and every
fallible operation is an `Except` value.  Field lookups (`dict.get`,
bracket access) follow Python semantics exactly: `get` returns the default
only when the key is absent, bracket access raises `KeyError` when the key
is absent, and truthiness of a string is non-emptiness.
-/

/-- A Python dict with string keys and string values, as an association
list in insertion order. -/
abbrev Dict := List (String × String)

/-- Python `d.get(k)`: `some v` when the key is present, `none` otherwise. -/
def dget (d : Dict) (k : String) : Option String :=
  (d.find? fun p => p.1 == k).map Prod.snd

/-- Python `d.get(k, dflt)`: the default fires only when the key is absent,
never when the key is present with an empty value. -/
def dgetD (d : Dict) (k : String) (dflt : String) : String :=
  (dget d k).getD dflt

/-- Python `d[k]`: bracket access, raising `KeyError` (carrying the key)
when the key is absent. -/
def dbracket (d : Dict) (k : String) : Except String String :=
  match dget d k with
  | some v => Except.ok v
  | none => Except.error k

/-- Python truthiness of an optional string: `None` and the empty string
are falsy, every other string is truthy. -/
def truthy : Option String → Bool
  | none => false
  | some s => s != ""

/-- A record as returned by the Airtable list endpoint: `record["id"]`
plus `record.get("fields", {})`.  A record without an `id` would raise a
`KeyError` inside the `try` of `fetch_stale_leads`, making the whole fetch
return `[]`; that situation is subsumed by the fetch-failure case of
`fetch_stale_leads` below, so `id` is a plain field here. -/
structure RawRecord where
  id : String
  fields : Dict
deriving DecidableEq

/-! ## Dates

`datetime.date` values and their subtraction.  `toRD` is a day count
linear in the Gregorian calendar (days since the epoch 0001-01-01,
1-based), so `dayDiff a b` equals Python's `(a - b).days`. -/

structure Date where
  year : Nat
  month : Nat
  day : Nat
deriving DecidableEq

def isLeap (y : Nat) : Bool :=
  y % 4 == 0 && (y % 100 != 0 || y % 400 == 0)

def monthLengths (y : Nat) : List Nat :=
  [31, if isLeap y then 29 else 28, 31, 30, 31, 30, 31, 31, 30, 31, 30, 31]

def daysInMonth (y m : Nat) : Nat :=
  (monthLengths y).getD (m - 1) 0

def leapsBefore (y : Nat) : Nat :=
  y / 4 - y / 100 + y / 400

def daysBeforeYear (y : Nat) : Nat :=
  365 * (y - 1) + leapsBefore (y - 1)

def daysBeforeMonth (y m : Nat) : Nat :=
  ((monthLengths y).take (m - 1)).sum

def toRD (d : Date) : Nat :=
  daysBeforeYear d.year + daysBeforeMonth d.year d.month + d.day

/-- Python `(a - b).days` for dates: the signed whole-day difference. -/
def dayDiff (a b : Date) : Int :=
  (toRD a : Int) - (toRD b : Int)

/-! ## Date parsing, modelling `datetime.strptime(s, fmt).date()`

CPython field regexes: `%m` matches 1-2 digits, `%d` matches 1-2 digits
or a single space followed by a nonzero digit, `%Y` matches exactly four
digits; the whole string must be consumed, and the resulting calendar
date must be valid (`datetime.MINYEAR = 1`, day within the month). -/

/-- Split a character list on a separator character; mirrors
`str.split`-style decomposition used to consume the fixed separators of
the two formats. -/
def splitOnChar (c : Char) : List Char → List (List Char)
  | [] => [[]]
  | x :: xs =>
    let r := splitOnChar c xs
    if x == c then [] :: r
    else
      match r with
      | [] => [[x]]
      | h :: t => (x :: h) :: t

def digitsToNat (l : List Char) : Nat :=
  l.foldl (fun a c => a * 10 + (c.toNat - 48)) 0

/-- A 1-to-`maxLen`-digit `strptime` field, as CPython's `%m` regex
(`1[0-2]|0[1-9]|[1-9]`): the numeric values our wider digit match admits
beyond the regex (such as 00 or 13-99) are exactly those the `mkDate`
constructor check rejects, so accept/reject outcomes coincide. -/
def parseNumField (l : List Char) (maxLen : Nat) : Option Nat :=
  if l.length == 0 || maxLen < l.length || !(l.all Char.isDigit) then none
  else some (digitsToNat l)

/-- CPython's `%Y` regex: exactly four digits (a four-digit 0000 is then
rejected by the `datetime.MINYEAR` check in `mkDate`). -/
def parseYearField (l : List Char) : Option Nat :=
  if l.length == 4 && l.all Char.isDigit then some (digitsToNat l) else none

/-- CPython's `%d` regex (`3[01]|[12]\d|0[1-9]|[1-9]| [1-9]`): one or
two digits, or a single space followed by a nonzero digit; numeric
values beyond the regex alternatives (00, 32-99) are equivalently
rejected by the `mkDate` constructor check. -/
def parseDayField (l : List Char) : Option Nat :=
  match l with
  | [' ', c] => if c.isDigit && c != '0' then some (digitsToNat [c]) else none
  | _ => parseNumField l 2

/-- The `datetime` constructor validity check: year at least 1, month
1-12, day within the month. -/
def mkDate (y m d : Nat) : Option Date :=
  if 1 ≤ y ∧ 1 ≤ m ∧ m ≤ 12 ∧ 1 ≤ d ∧ d ≤ daysInMonth y m then some ⟨y, m, d⟩
  else none

/-- `datetime.strptime(s, "%d/%m/%Y").date()`. -/
def strptime_dmy (s : String) : Option Date :=
  match splitOnChar '/' s.data with
  | [ds, ms, ys] => do
    let d ← parseDayField ds
    let m ← parseNumField ms 2
    let y ← parseYearField ys
    mkDate y m d
  | _ => none

/-- `datetime.strptime(s, "%Y-%m-%d").date()`. -/
def strptime_ymd (s : String) : Option Date :=
  match splitOnChar '-' s.data with
  | [ys, ms, ds] => do
    let y ← parseYearField ys
    let m ← parseNumField ms 2
    let d ← parseDayField ds
    mkDate y m d
  | _ => none

/-- Python `"/" in s`. -/
def hasSlash (s : String) : Bool :=
  s.data.contains '/'

/-! ## Staleness classification (airtable_utils.py, fetch_stale_leads)

The per-record loop body of `fetch_stale_leads` (lines 52-88): build the
normalized lead dict, skip it when a generated message already exists,
include it when `Last Contacted` is falsy, otherwise parse the date with
the slash/ISO policy and include on strict `> 7` days (or on parse
failure, with a logged warning, modelled as the record id in the second
component). -/

/-- The normalized lead dict built at airtable_utils.py lines 57-70.  The
source comment says "camelCase keys" but the keys actually produced are
snake_case. -/
def normalizeLead (r : RawRecord) : Dict :=
  [("id", r.id),
   ("full_name", dgetD r.fields "Full Name" ""),
   ("email", dgetD r.fields "Email Address" ""),
   ("phone_number", dgetD r.fields "Phone Number" ""),
   ("potential_interest", dgetD r.fields "Potential Interest" ""),
   ("crm_services_needed", dgetD r.fields "CRM Services Needed" ""),
   ("lead_source", dgetD r.fields "Lead Source" ""),
   ("status_in_sales_funnel", dgetD r.fields "Status in Sales Funnel" ""),
   ("last_contacted", dgetD r.fields "Last Contacted" ""),
   ("generated_email_message", dgetD r.fields "Generated Text Message" ""),
   ("timestamp", dgetD r.fields "Timestamp" ""),
   ("status", dgetD r.fields "Status" "")]

/-- One iteration of the classification loop: `some lead` when the record
is appended to `stale_leads`, plus `some id` when the parse-failure
warning is logged for it. -/
def classifyRecord (r : RawRecord) (today : Date) : Option Dict × Option String :=
  let lead := normalizeLead r
  if truthy (dget lead "generated_email_message") then (none, none)
  else
    match dget r.fields "Last Contacted" with
    | none => (some lead, none)
    | some s =>
      if s == "" then (some lead, none)
      else
        match (if hasSlash s then strptime_dmy s else strptime_ymd s) with
        | some d => if dayDiff today d > 7 then (some lead, none) else (none, none)
        | none => (some lead, some r.id)

/-- The whole classification loop, in record order: the stale leads and
the ids for which a parse warning was logged. -/
def classifyAll (records : List RawRecord) (today : Date) : List Dict × List String :=
  match records with
  | [] => ([], [])
  | r :: rest =>
    let hd := classifyRecord r today
    let tl := classifyAll rest today
    (hd.1.toList ++ tl.1, hd.2.toList ++ tl.2)

/-- `fetch_stale_leads`: the paginated GET is collapsed into its overall
outcome (`fetched`); any exception anywhere in the body is caught and the
function returns `[]` (lines 93-95).  The `datetime.now().date()` read at
line 49 is the `today` parameter. -/
def fetch_stale_leads (fetched : Except String (List RawRecord)) (today : Date) : List Dict :=
  match fetched with
  | Except.error _ => []
  | Except.ok records => (classifyAll records today).1

/-! ## JSON values (the parsed bodies the Gemini API returns)

Only what `generate_re_engagement_email` inspects: objects, arrays,
strings, numbers, null, with Python truthiness and the raising access
operators used at email_generator.py lines 100-101. -/

inductive Json where
  | jnull : Json
  | jstr : String → Json
  | jnum : Int → Json
  | jarr : List Json → Json
  | jobj : List (String × Json) → Json

def Json.truthy : Json → Bool
  | .jnull => false
  | .jstr s => s != ""
  | .jnum n => n != 0
  | .jarr xs => !xs.isEmpty
  | .jobj kvs => !kvs.isEmpty

/-- Python `j[k]` on a parsed JSON value: `KeyError` (carrying the key)
on a dict without the key, `TypeError` on anything that is not a dict. -/
def jget (j : Json) (k : String) : Except String Json :=
  match j with
  | .jobj kvs =>
    match kvs.find? (fun p => p.1 == k) with
    | some p => Except.ok p.2
    | none => Except.error k
  | _ => Except.error "TypeError"

/-- Python `j[i]` on a parsed JSON value. -/
def jindex (j : Json) (i : Nat) : Except String Json :=
  match j with
  | .jarr xs =>
    match xs.get? i with
    | some x => Except.ok x
    | none => Except.error "list index out of range"
  | _ => Except.error "TypeError"

def listIsPre : List Char → List Char → Bool
  | [], _ => true
  | _ :: _, [] => false
  | a :: ps, b :: ls => a == b && listIsPre ps ls

def listContainsSub (p : List Char) : List Char → Bool
  | [] => p.isEmpty
  | x :: ls => listIsPre p (x :: ls) || listContainsSub p ls

/-- Python `k in j`: key test on dicts, membership on lists, substring
test on strings, `TypeError` otherwise. -/
def jContains (j : Json) (k : String) : Except String Bool :=
  match j with
  | .jobj kvs => Except.ok (kvs.any (fun p => p.1 == k))
  | .jarr xs => Except.ok (xs.any (fun x => match x with | .jstr s => s == k | _ => false))
  | .jstr s => Except.ok (listContainsSub k.data s.data)
  | _ => Except.error "TypeError"

/-! ## Email generator (email_generator.py) -/

/-- The required-field list at email_generator.py line 151. -/
def required_fields : List String := ["fullName", "emailAddress"]

/-- `validate_lead_data`: every required field present and truthy. -/
def validate_lead_data (lead : Dict) : Bool :=
  required_fields.all fun f => truthy (dget lead f)

/-- The six values interpolated into the prompt f-string, computed with
the exact `lead.get` defaults of email_generator.py lines 38-43.  Note
the email default is the empty string, and `get` defaults never fire for
a key that is present with an empty value. -/
structure PromptFields where
  full_name : String
  email_address : String
  potential_interest : String
  crm_services_needed : String
  lead_source : String
  last_contacted : String
deriving DecidableEq

def promptFieldsOf (lead : Dict) : PromptFields :=
  ⟨dgetD lead "fullName" "Valued Customer",
   dgetD lead "emailAddress" "",
   dgetD lead "potentialInterest" "our services",
   dgetD lead "crmServicesNeeded" "their CRM needs",
   dgetD lead "leadSource" "a previous conversation",
   dgetD lead "lastContacted" "more than a week ago"⟩

/-- The interpolated values in template order. -/
def promptInterpolations (lead : Dict) : List String :=
  let f := promptFieldsOf lead
  [f.full_name, f.email_address, f.potential_interest, f.crm_services_needed,
   f.lead_source, f.last_contacted]

def isPySpace (c : Char) : Bool :=
  c == ' ' || c == '\n' || c == '\t' || c == '\r'

/-- Python `str.strip()` for the whitespace forms appearing in the
template. -/
def pyStrip (s : String) : String :=
  ⟨((s.data.dropWhile isPySpace).reverse.dropWhile isPySpace).reverse⟩

/-- `_create_personalized_prompt` (the leading underscore of the Python
name is dropped): the template f-string with the six interpolations,
then `.strip()`. -/
def create_personalized_prompt (lead : Dict) : String :=
  let f := promptFieldsOf lead
  pyStrip ("\nYou are a professional sales representative writing a personalized re-engagement email to a lead who has gone stale.\n\nLEAD INFORMATION:\n- Name: " ++ f.full_name ++ "\n- Email: " ++ f.email_address ++ "\n- Potential Interest: " ++ f.potential_interest ++ "\n- CRM Services Needed: " ++ f.crm_services_needed ++ "\n- Lead Source: " ++ f.lead_source ++ "\n- Last Contacted: " ++ f.last_contacted ++ "\n- Status: Lead has been inactive for more than 7 days\n\nTASK: Write a compelling, personalized re-engagement email that:\n1. Acknowledges the time gap since last contact.\n2. References their specific interests and needs.\n3. Provides value or insight related to their CRM needs.\n4. Includes a clear, soft call-to-action.\n5. Maintains a professional but friendly tone.\n6. Keep it concise (under 200 words).\n\nFORMAT YOUR RESPONSE AS:\nSubject: [Compelling subject line]\n\n[Email body]\n\nBest regards,\n[Your Name]\n\nIMPORTANT: Make it personal and relevant to their specific situation. Avoid generic sales language.\n")

/-- The condition and re-access at email_generator.py lines 100-101:
`response and "candidates" in response and
response["candidates"][0]["content"]["parts"][0]["text"]`.
`ok (some t)` means the condition was truthy with final value `t`,
`ok none` means it evaluated falsy without raising, `error e` means
evaluating it raised (caught by the enclosing `except`). -/
def extract_generated_text (resp : Json) : Except String (Option Json) :=
  if resp.truthy then do
    let hasC ← jContains resp "candidates"
    if hasC then do
      let c ← jget resp "candidates"
      let c0 ← jindex c 0
      let ct ← jget c0 "content"
      let ps ← jget ct "parts"
      let p0 ← jindex ps 0
      let t ← jget p0 "text"
      if t.truthy then pure (some t) else pure none
    else pure none
  else pure none

/-- The value Python would hand back for the extracted text node.  The
API contract makes it a string; non-string truthy nodes (which Python
would return as raw JSON values) are outside that contract and rendered
by this catch-all. -/
def jsonAsPy : Json → String
  | .jstr s => s
  | .jnum n => toString n
  | _ => ""

/-- `generate_re_engagement_email`.  The outcome of the awaited
`_make_api_call(payload)` is the `api` parameter: `error e` when the call
raised (exhausted retries or a non-retryable HTTP error, caught by the
`except` at line 107), `ok resp` when it returned a parsed body.  All
other work in the function is pure. -/
def generate_re_engagement_email (lead : Dict) (api : Except String Json) : String :=
  if validate_lead_data lead then
    match api with
    | Except.error e => "Error generating email: " ++ e
    | Except.ok resp =>
      match extract_generated_text resp with
      | Except.error e => "Error generating email: " ++ e
      | Except.ok none => "Error: Gemini API returned an empty or invalid response."
      | Except.ok (some t) => jsonAsPy t
  else "Error: Missing required lead data (fullName or emailAddress)."

/-! ## Retry executor (email_generator.py, _make_api_call)

One attempt of the outbound POST either returns a parsed body, raises
`httpx.HTTPStatusError` with some status, or raises a transport-level
`httpx.RequestError`.  The attempt outcomes are an oracle indexed by the
0-based loop variable `i`. -/

inductive AttemptResult where
  | ok : Json → AttemptResult
  | httpError : Nat → AttemptResult
  | transport : AttemptResult

inductive CallError where
  | httpError : Nat → CallError
  | transport : CallError
deriving DecidableEq

/-- The observable behaviour of one `_make_api_call` run: the returned
body (`ok (some body)`), the unreachable fall-off-the-loop `return None`
(`ok none`), or the propagated exception; the total number of attempts
made; and the list of backoff sleeps in order. -/
structure CallTrace where
  result : Except CallError (Option Json)
  attempts : Nat
  sleeps : List Nat

def prependSleep (d : Nat) (t : CallTrace) : CallTrace :=
  ⟨t.result, t.attempts, d :: t.sleeps⟩

/-- Prepend a whole block of sleeps to a trace (the accumulated backoff
of a retry prefix). -/
def addSleeps (l : List Nat) (t : CallTrace) : CallTrace :=
  ⟨t.result, t.attempts, l ++ t.sleeps⟩

/-- The `for i in range(retries)` loop, fuel-indexed (`fuel` is the number
of iterations left, so `i = retries - fuel` at the top call).  Python's
`i < retries - 1` is written `i + 1 < retries`, which agrees on
naturals. -/
def make_api_call_go (f : Nat → AttemptResult) (retries : Nat) :
    Nat → Nat → Nat → CallTrace
  | 0, i, _ => ⟨Except.ok none, i, []⟩
  | fuel + 1, i, delay =>
    match f i with
    | AttemptResult.ok body => ⟨Except.ok (some body), i + 1, []⟩
    | AttemptResult.httpError st =>
      if st == 429 && decide (i + 1 < retries) then
        prependSleep delay (make_api_call_go f retries fuel (i + 1) (delay * 2))
      else ⟨Except.error (CallError.httpError st), i + 1, []⟩
    | AttemptResult.transport =>
      if decide (i + 1 < retries) then
        prependSleep delay (make_api_call_go f retries fuel (i + 1) (delay * 2))
      else ⟨Except.error CallError.transport, i + 1, []⟩

/-- `_make_api_call` with its default arguments `retries=5, delay=1` (the
leading underscore of the Python name is dropped). -/
def make_api_call (f : Nat → AttemptResult) : CallTrace :=
  make_api_call_go f 5 5 0 1

/-- The deterministic doubling backoff schedule: `k` sleeps starting at
`delay`. -/
def powList (delay k : Nat) : List Nat :=
  (List.range k).map fun j => delay * 2 ^ j

/-! ## Batch pipeline (airtable_utils.py, process_all_stale_leads)

External effects as oracles: `genApi lead` is the outcome of the
text-generation API call made for `lead` (feeding
`generate_re_engagement_email`), and `updateOk leadId text` is the
boolean result of `update_lead_with_generated_email` (which catches all
its exceptions and returns a bool, lines 135-161). -/

/-- One entry of `results`: the dict literal keys `lead_id`, `name`,
`status`, `message`. -/
structure OutcomeRec where
  lead_id : String
  name : String
  status : String
  message : String
deriving DecidableEq

/-- The three return dicts of `process_all_stale_leads` collapsed to one
shape (the code varies between `processed` and `total_leads` keys; both
are `total_leads` here, 0 for the empty and failure returns). -/
structure BatchReport where
  success : Bool
  message : String
  total_leads : Nat
  successful : Nat
  results : List OutcomeRec
deriving DecidableEq

/-- The body of the per-lead `try` (lines 184-227).  `Except.error e`
models an exception escaping the body with detail `e` (only possible via
a `KeyError` from bracket access, since `generate_re_engagement_email`
and the update helper never raise). -/
def process_one_body (genApi : Dict → Except String Json)
    (updateOk : String → String → Bool) (lead : Dict) : Except String OutcomeRec :=
  if truthy (dget lead "generatedTextMessage") then do
    let i ← dbracket lead "id"
    let n ← dbracket lead "fullName"
    pure ⟨i, n, "already_processed", "Email already generated"⟩
  else if !truthy (dget lead "fullName") || !truthy (dget lead "emailAddress") then do
    let i ← dbracket lead "id"
    pure ⟨i, dgetD lead "fullName" "Unknown", "insufficient_data", "Missing name or email"⟩
  else do
    let generated := generate_re_engagement_email lead (genApi lead)
    let i ← dbracket lead "id"
    if updateOk i generated then do
      let n ← dbracket lead "fullName"
      pure ⟨i, n, "success", "Email generated and saved"⟩
    else do
      let n ← dbracket lead "fullName"
      pure ⟨i, n, "update_failed", "Failed to update Airtable"⟩

/-- One loop iteration with its `except` handler (lines 228-234): a
caught exception is recorded as an `error` outcome, unless the handler
itself raises `KeyError` on `lead["id"]`, which escapes to the outer
handler. -/
def process_one (genApi : Dict → Except String Json)
    (updateOk : String → String → Bool) (lead : Dict) : Except String OutcomeRec :=
  match process_one_body genApi updateOk lead with
  | Except.ok r => Except.ok r
  | Except.error e =>
    match dget lead "id" with
    | some i =>
      Except.ok ⟨i, dgetD lead "fullName" "Unknown", "error", "Processing error: " ++ e⟩
    | none => Except.error "id"

/-- The loop over `stale_leads`, accumulating `results` in order and
`success_count`. -/
def process_loop (genApi : Dict → Except String Json)
    (updateOk : String → String → Bool) :
    List Dict → Except String (List OutcomeRec × Nat)
  | [] => Except.ok ([], 0)
  | l :: ls => do
    let r ← process_one genApi updateOk l
    let rest ← process_loop genApi updateOk ls
    pure (r :: rest.1, (if r.status == "success" then 1 else 0) + rest.2)

/-- `process_all_stale_leads`: fetch (which never raises - it catches its
own exceptions and returns `[]`), the early empty-list return, the loop,
and the outer `except` producing the `success = false` report. -/
def process_all_stale_leads (fetched : Except String (List RawRecord)) (today : Date)
    (genApi : Dict → Except String Json) (updateOk : String → String → Bool) :
    BatchReport :=
  let stale_leads := fetch_stale_leads fetched today
  if stale_leads.isEmpty then
    ⟨true, "No stale leads found", 0, 0, []⟩
  else
    match process_loop genApi updateOk stale_leads with
    | Except.ok (results, success_count) =>
      ⟨true,
       "Processed " ++ toString stale_leads.length ++ " stale leads. " ++
         toString success_count ++ " successful.",
       stale_leads.length, success_count, results⟩
    | Except.error e =>
      ⟨false, "Error processing stale leads: " ++ e, 0, 0, []⟩

/-! ## Concrete fixtures used by closed theorems and witnesses -/

def refDate : Date := ⟨2024, 1, 15⟩

def recA : RawRecord := ⟨"recA", [("Full Name", "Alice"), ("Phone Number", "111")]⟩

def recB : RawRecord := ⟨"recB", [("Full Name", "Bob"), ("Email Address", "bob@example.com")]⟩

def recC : RawRecord := ⟨"recC", [("Full Name", "Cara"), ("Email Address", "cara@example.com")]⟩

def recJ : RawRecord := ⟨"rec1", [("Full Name", "Jane"), ("Email Address", "jane@example.com")]⟩

/-- A well-formed Gemini response body carrying `txt` at
`candidates[0].content.parts[0].text`. -/
def okResponse (txt : String) : Json :=
  Json.jobj [("candidates", Json.jarr [Json.jobj [("content",
    Json.jobj [("parts", Json.jarr [Json.jobj [("text", Json.jstr txt)]])])]])]

/-- A generation API that always succeeds with a well-formed body. -/
def genOracle : Dict → Except String Json := fun _ => Except.ok (okResponse "Hello again")

/-- A write-back that succeeds for every lead except `recC`. -/
def updOracle : String → String → Bool := fun i _ => !(i == "recC")

/-- A generation API whose underlying call raised (retries exhausted). -/
def genFail : Dict → Except String Json := fun _ => Except.error "boom"

/-- A write-back that succeeds exactly when handed the error text produced
by a failed generation: its success in a theorem shows that text was the
value being persisted. -/
def updEcho : String → String → Bool := fun _ msg => msg == "Error generating email: boom"

/-- A lead with camelCase keys (the shape `process_all_stale_leads`
expects, though `fetch_stale_leads` never produces it). -/
def camelLead : Dict := [("id", "L1"), ("fullName", "Jane"), ("emailAddress", "jane@example.com")]

/-- A validated lead whose optional field is present but empty. -/
def cexLead : Dict :=
  [("fullName", "Jane Doe"), ("emailAddress", "jane@example.com"), ("potentialInterest", "")]

def rIso : RawRecord := ⟨"rIso", [("Last Contacted", "2024-01-04")]⟩

def rSlash : RawRecord := ⟨"rSlash", [("Last Contacted", "01/01/2024")]⟩

def rFut : RawRecord := ⟨"rFut", [("Last Contacted", "2024-02-01")]⟩

def rBad : RawRecord := ⟨"rBad", [("Last Contacted", "not-a-date")]⟩

def rGen : RawRecord := ⟨"rGen", [("Generated Text Message", "done"), ("Last Contacted", "2020-01-01")]⟩

/-- Attempt oracle: rate-limited twice, then a successful body. -/
def f429twice : Nat → AttemptResult :=
  fun i => if i < 2 then AttemptResult.httpError 429 else AttemptResult.ok Json.jnull

/-- Attempt oracle: rate-limited on every attempt. -/
def fAlways429 : Nat → AttemptResult := fun _ => AttemptResult.httpError 429

/-- Attempt oracle: a non-retryable server error on every attempt. -/
def f500 : Nat → AttemptResult := fun _ => AttemptResult.httpError 500

/-! ## Helper lemmas -/

theorem except_bind_ok {ε α β : Type} (a : α) (f : α → Except ε β) :
    (Except.ok a >>= f : Except ε β) = f a := rfl

theorem strAppend_assoc (a b c : String) : a ++ b ++ c = a ++ (b ++ c) := by
  cases a; cases b; cases c
  exact congrArg String.mk (List.append_assoc _ _ _)

/-- The generated-message guard of the loop tests the normalized lead
entry, whose value is the raw `Generated Text Message` field defaulted to
the empty string; both sides have the same truthiness. -/
theorem genMsg_bridge (r : RawRecord) :
    truthy (dget (normalizeLead r) "generated_email_message") =
      truthy (dget r.fields "Generated Text Message") := by
  have h1 : dget (normalizeLead r) "generated_email_message" =
      some (dgetD r.fields "Generated Text Message" "") := rfl
  rw [h1]
  unfold dgetD
  cases h2 : dget r.fields "Generated Text Message" <;> simp [truthy]

/-- With a truthy (non-empty) generated message the loop body appends
nothing and logs nothing, whatever the date fields hold. -/
theorem classifyRecord_guard_true (r : RawRecord) (today : Date)
    (hg : truthy (dget r.fields "Generated Text Message") = true) :
    classifyRecord r today = (none, none) := by
  simp only [classifyRecord]
  rw [genMsg_bridge r, hg]
  simp

/-- With a falsy generated message the loop body reduces to the
last-contacted analysis. -/
theorem classifyRecord_guard_false_eq (r : RawRecord) (today : Date)
    (hg : truthy (dget r.fields "Generated Text Message") = false) :
    classifyRecord r today =
      match dget r.fields "Last Contacted" with
      | none => (some (normalizeLead r), none)
      | some s =>
        if s == "" then (some (normalizeLead r), none)
        else
          match (if hasSlash s then strptime_dmy s else strptime_ymd s) with
          | some d =>
            if dayDiff today d > 7 then (some (normalizeLead r), none) else (none, none)
          | none => (some (normalizeLead r), some r.id) := by
  simp only [classifyRecord]
  rw [genMsg_bridge r, hg]
  simp

theorem classifyRecord_fst (r : RawRecord) (today : Date) :
    (classifyRecord r today).1 = none ∨
      (classifyRecord r today).1 = some (normalizeLead r) := by
  rcases Bool.eq_false_or_eq_true (truthy (dget r.fields "Generated Text Message")) with hg | hg
  · rw [classifyRecord_guard_true r today hg]
    exact Or.inl rfl
  · rw [classifyRecord_guard_false_eq r today hg]
    split
    · exact Or.inr rfl
    · split
      · exact Or.inr rfl
      · split
        · split
          · exact Or.inr rfl
          · exact Or.inl rfl
        · exact Or.inr rfl

theorem classifyRecord_some (r : RawRecord) (today : Date) (l : Dict)
    (h : (classifyRecord r today).1 = some l) :
    l = normalizeLead r ∧ dget l "generated_email_message" = some "" := by
  have hg : truthy (dget r.fields "Generated Text Message") = false := by
    by_contra hg'
    rw [Bool.not_eq_false] at hg'
    rw [classifyRecord_guard_true r today hg'] at h
    exact Option.noConfusion h
  have hl : l = normalizeLead r := by
    rcases classifyRecord_fst r today with h' | h'
    · rw [h'] at h; exact absurd h (Option.noConfusion ·)
    · have := h'.symm.trans h
      exact (Option.some_inj.mp this).symm
  refine ⟨hl, ?_⟩
  have hval : dget (normalizeLead r) "generated_email_message" =
      some (dgetD r.fields "Generated Text Message" "") := rfl
  have hempty : dgetD r.fields "Generated Text Message" "" = "" := by
    unfold dgetD
    cases h2 : dget r.fields "Generated Text Message" with
    | none => rfl
    | some v =>
      rw [h2] at hg
      simpa [truthy] using hg
  rw [hl, hval, hempty]

theorem mem_classifyAll (today : Date) :
    ∀ (records : List RawRecord) (l : Dict), l ∈ (classifyAll records today).1 →
      ∃ r, r ∈ records ∧ (classifyRecord r today).1 = some l := by
  intro records
  induction records with
  | nil => intro l h; simp [classifyAll] at h
  | cons r rest ih =>
    intro l h
    simp only [classifyAll] at h
    rw [List.mem_append] at h
    rcases h with h | h
    · refine ⟨r, List.mem_cons_self r rest, ?_⟩
      cases hc : (classifyRecord r today).1 with
      | none => rw [hc] at h; simp at h
      | some x =>
        rw [hc] at h
        simp only [Option.toList_some, List.mem_singleton] at h
        rw [h]
    · obtain ⟨r', hr', hcl⟩ := ih l h
      exact ⟨r', List.mem_cons_of_mem r hr', hcl⟩

/-- Every lead `fetch_stale_leads` produces carries only snake_case keys,
so the camelCase lookups of the batch loop all miss and the loop body
lands in the `insufficient_data` branch with the `Unknown` default
name. -/
theorem process_one_normalized (genApi : Dict → Except String Json)
    (updateOk : String → String → Bool) (r : RawRecord) :
    process_one genApi updateOk (normalizeLead r) =
      Except.ok ⟨r.id, "Unknown", "insufficient_data", "Missing name or email"⟩ := rfl

theorem process_loop_normalized (genApi : Dict → Except String Json)
    (updateOk : String → String → Bool) :
    ∀ ls : List Dict, (∀ l ∈ ls, ∃ r : RawRecord, l = normalizeLead r) →
      ∃ out, process_loop genApi updateOk ls = Except.ok (out, 0) := by
  intro ls
  induction ls with
  | nil => intro; exact ⟨[], rfl⟩
  | cons l ls ih =>
    intro h
    obtain ⟨r, hr⟩ := h l (List.mem_cons_self l ls)
    obtain ⟨out, hout⟩ := ih fun x hx => h x (List.mem_cons_of_mem l hx)
    subst hr
    refine ⟨⟨r.id, "Unknown", "insufficient_data", "Missing name or email"⟩ :: out, ?_⟩
    simp [process_loop, process_one_normalized, except_bind_ok, hout]

/-! ## Claim theorems -/

/-- C1: a batch over three candidates (A without an email, B fully
succeeding, C failing only at write-back) is recorded by the code as
three `insufficient_data` outcomes with `successful = 0`, not the
`[insufficient_data, success, update_failed]` with one success that the
specification states: the loop reads camelCase keys that
`fetch_stale_leads` never produces. -/
theorem batch_three_candidates_all_insufficient :
    process_all_stale_leads (Except.ok [recA, recB, recC]) refDate genOracle updOracle =
      ⟨true, "Processed 3 stale leads. 0 successful.", 3, 0,
        [⟨"recA", "Unknown", "insufficient_data", "Missing name or email"⟩,
         ⟨"recB", "Unknown", "insufficient_data", "Missing name or email"⟩,
         ⟨"recC", "Unknown", "insufficient_data", "Missing name or email"⟩]⟩ ∧
    (process_all_stale_leads (Except.ok [recA, recB, recC]) refDate genOracle
        updOracle).results.map OutcomeRec.status ≠
      ["insufficient_data", "success", "update_failed"] ∧
    (process_all_stale_leads (Except.ok [recA, recB, recC]) refDate genOracle
        updOracle).successful ≠ 1 := by
  refine ⟨rfl, by decide, by decide⟩

/-- C2 counterexample: when the store fetch fails the run does not report
`success = false`; the failure is swallowed by `fetch_stale_leads` and the
run reports a successful empty batch. -/
theorem fetch_failure_reports_success :
    process_all_stale_leads (Except.error "store unavailable") refDate genOracle updOracle =
      ⟨true, "No stale leads found", 0, 0, []⟩ := rfl

/-- C2 (amended): every run of the batch pipeline reports
`success = true`, whatever the fetch outcome, the records, or the
per-candidate oracles; the `success = false` branch is unreachable. -/
theorem process_all_stale_leads_always_success :
    ∀ (fetched : Except String (List RawRecord)) (today : Date)
      (genApi : Dict → Except String Json) (updateOk : String → String → Bool),
      (process_all_stale_leads fetched today genApi updateOk).success = true := by
  intro fetched today g u
  by_cases he : (fetch_stale_leads fetched today).isEmpty
  · simp [process_all_stale_leads, he]
  · have hmem : ∀ l ∈ fetch_stale_leads fetched today, ∃ r : RawRecord, l = normalizeLead r := by
      intro l hl
      cases fetched with
      | error e => simp [fetch_stale_leads] at hl
      | ok records =>
        obtain ⟨r, _, hc⟩ := mem_classifyAll today records l
          (by simpa [fetch_stale_leads] using hl)
        exact ⟨r, (classifyRecord_some r today l hc).1⟩
    obtain ⟨out, hout⟩ := process_loop_normalized g u _ hmem
    simp [process_all_stale_leads, he, hout]

/-- C3: the per-candidate outcome contract fails twice.  First, a
candidate whose generation and write-back would both succeed is recorded
as `insufficient_data`, not `success` (camelCase key bug).  Second, on a
lead shaped as the loop expects, a failed generation is not recorded as
`error`: the returned error text is handed to the write-back (the update
oracle here succeeds only on exactly that text) and the outcome is
`success`. -/
theorem per_candidate_outcome_divergence :
    (process_all_stale_leads (Except.ok [recJ]) refDate genOracle
        (fun _ _ => true)).results.map OutcomeRec.status = ["insufficient_data"] ∧
    process_one genFail updEcho camelLead =
      Except.ok ⟨"L1", "Jane", "success", "Email generated and saved"⟩ := by
  exact ⟨by decide, rfl⟩

/-- C5: for a record with no generated message whose non-empty
last-contacted string parses (day/month/year when it contains a slash,
ISO year-month-day otherwise), the classifier includes it exactly when
the reference date minus the parsed date is strictly greater than 7 days;
exactly 7 days and future dates are excluded. -/
theorem stale_strict_seven_day_threshold :
    ∀ (r : RawRecord) (today : Date) (s : String) (d : Date),
      truthy (dget r.fields "Generated Text Message") = false →
      dget r.fields "Last Contacted" = some s →
      s ≠ "" →
      (if hasSlash s then strptime_dmy s else strptime_ymd s) = some d →
      classifyRecord r today =
        ((if dayDiff today d > 7 then some (normalizeLead r) else none), none) := by
  intro r today s d hg hs hne hp
  rw [classifyRecord_guard_false_eq r today hg, hs]
  have hbeq : (s == "") = false := by simpa using hne
  simp only [hbeq, hp]
  by_cases hd : dayDiff today d > 7 <;> simp [hd]

/-- C5 witness: ISO string at exactly 7 days excluded, slash-format
string at 9 days included, future ISO date excluded. -/
theorem stale_strict_seven_day_threshold_witness :
    classifyRecord rIso ⟨2024, 1, 11⟩ = (none, none) ∧
    classifyRecord rSlash ⟨2024, 1, 10⟩ = (some (normalizeLead rSlash), none) ∧
    classifyRecord rFut ⟨2024, 1, 11⟩ = (none, none) := by
  refine ⟨?_, ?_, ?_⟩
  · have h := stale_strict_seven_day_threshold rIso ⟨2024, 1, 11⟩ "2024-01-04" ⟨2024, 1, 4⟩
      rfl rfl (by decide) (by decide)
    rw [h]; decide
  · have h := stale_strict_seven_day_threshold rSlash ⟨2024, 1, 10⟩ "01/01/2024" ⟨2024, 1, 1⟩
      rfl rfl (by decide) (by decide)
    rw [h]; decide
  · have h := stale_strict_seven_day_threshold rFut ⟨2024, 1, 11⟩ "2024-02-01" ⟨2024, 2, 1⟩
      rfl rfl (by decide) (by decide)
    rw [h]; decide

/-- C6: a record with a non-empty generated message is excluded
unconditionally, regardless of its dates, and every lead the classifier
returns has an empty generated message. -/
theorem generated_message_guard :
    (∀ (r : RawRecord) (today : Date),
        truthy (dget r.fields "Generated Text Message") = true →
        classifyRecord r today = (none, none)) ∧
    (∀ (fetched : Except String (List RawRecord)) (today : Date) (l : Dict),
        l ∈ fetch_stale_leads fetched today →
        dget l "generated_email_message" = some "") := by
  constructor
  · exact fun r today hg => classifyRecord_guard_true r today hg
  · intro fetched today l hl
    cases fetched with
    | error e => simp [fetch_stale_leads] at hl
    | ok records =>
      obtain ⟨r, _, hc⟩ := mem_classifyAll today records l
        (by simpa [fetch_stale_leads] using hl)
      exact (classifyRecord_some r today l hc).2

/-- C6 witness: a record with message "done" and a four-year-old date is
excluded, and the candidate produced for recB carries an empty message. -/
theorem generated_message_guard_witness :
    classifyRecord rGen refDate = (none, none) ∧
    dget (normalizeLead recB) "generated_email_message" = some "" := by
  constructor
  · exact generated_message_guard.1 rGen refDate rfl
  · exact generated_message_guard.2 (Except.ok [recB]) refDate (normalizeLead recB) (by decide)

/-- C7: for a record with no generated message, a falsy (absent or empty)
last-contacted field is included for any reference date, and a non-empty
string the selected format cannot parse is included with the parse
warning logged for that record. -/
theorem falsy_or_unparsable_included :
    ∀ (r : RawRecord) (today : Date),
      truthy (dget r.fields "Generated Text Message") = false →
      (truthy (dget r.fields "Last Contacted") = false →
        classifyRecord r today = (some (normalizeLead r), none)) ∧
      (∀ s, dget r.fields "Last Contacted" = some s → s ≠ "" →
        (if hasSlash s then strptime_dmy s else strptime_ymd s) = none →
        classifyRecord r today = (some (normalizeLead r), some r.id)) := by
  intro r today hg
  constructor
  · intro hl
    rw [classifyRecord_guard_false_eq r today hg]
    cases hcase : dget r.fields "Last Contacted" with
    | none => rfl
    | some s =>
      rw [hcase] at hl
      simp only [truthy] at hl
      have hs : s = "" := by simpa using hl
      subst hs
      simp
  · intro s hs hne hp
    rw [classifyRecord_guard_false_eq r today hg, hs]
    have hbeq : (s == "") = false := by simpa using hne
    simp [hbeq, hp]

/-- C7 witness: recA (no last-contacted field) is included for the
reference date, and rBad (the string "not-a-date") is included with a
warning for its record id. -/
theorem falsy_or_unparsable_included_witness :
    classifyRecord recA refDate = (some (normalizeLead recA), none) ∧
    classifyRecord rBad refDate = (some (normalizeLead rBad), some "rBad") := by
  constructor
  · exact (falsy_or_unparsable_included recA refDate rfl).1 rfl
  · exact (falsy_or_unparsable_included rBad refDate rfl).2 "not-a-date" rfl
      (by decide) (by decide)

/-- C8 counterexample: a lead that passes validation but whose
potential-interest field is present with an empty value produces an
empty-string interpolation in the prompt, because the `get` defaults fire
only for absent keys. -/
theorem prompt_empty_interpolation_cex :
    validate_lead_data cexLead = true ∧ "" ∈ promptInterpolations cexLead := by
  exact ⟨rfl, by decide⟩

/-- C8 (amended): the prompt is a pure function of the lead fields; a
field whose key is absent gets the fixed generic placeholder, which is
non-empty for every field except the email field (whose default is the
empty string); a field present with any value, including the empty
string, is interpolated verbatim. -/
theorem prompt_placeholder_defaults :
    ∀ lead : Dict,
      (dget lead "fullName" = none → (promptFieldsOf lead).full_name = "Valued Customer") ∧
      (dget lead "emailAddress" = none → (promptFieldsOf lead).email_address = "") ∧
      (dget lead "potentialInterest" = none →
        (promptFieldsOf lead).potential_interest = "our services") ∧
      (dget lead "crmServicesNeeded" = none →
        (promptFieldsOf lead).crm_services_needed = "their CRM needs") ∧
      (dget lead "leadSource" = none →
        (promptFieldsOf lead).lead_source = "a previous conversation") ∧
      (dget lead "lastContacted" = none →
        (promptFieldsOf lead).last_contacted = "more than a week ago") ∧
      (∀ v, dget lead "potentialInterest" = some v →
        (promptFieldsOf lead).potential_interest = v) := by
  intro lead
  refine ⟨?_, ?_, ?_, ?_, ?_, ?_, ?_⟩
  · intro h; simp [promptFieldsOf, dgetD, h]
  · intro h; simp [promptFieldsOf, dgetD, h]
  · intro h; simp [promptFieldsOf, dgetD, h]
  · intro h; simp [promptFieldsOf, dgetD, h]
  · intro h; simp [promptFieldsOf, dgetD, h]
  · intro h; simp [promptFieldsOf, dgetD, h]
  · intro v h; simp [promptFieldsOf, dgetD, h]

/-- C8 witness: on the empty lead every placeholder fires (email's being
empty), and on a lead whose potential interest is present but empty the
interpolated value is the empty string. -/
theorem prompt_placeholder_defaults_witness :
    (promptFieldsOf []).full_name = "Valued Customer" ∧
    (promptFieldsOf []).email_address = "" ∧
    (promptFieldsOf []).potential_interest = "our services" ∧
    (promptFieldsOf []).crm_services_needed = "their CRM needs" ∧
    (promptFieldsOf []).lead_source = "a previous conversation" ∧
    (promptFieldsOf []).last_contacted = "more than a week ago" ∧
    (promptFieldsOf [("potentialInterest", "")]).potential_interest = "" := by
  have h1 := prompt_placeholder_defaults []
  have h2 := prompt_placeholder_defaults [("potentialInterest", "")]
  exact ⟨h1.1 rfl, h1.2.1 rfl, h1.2.2.1 rfl, h1.2.2.2.1 rfl, h1.2.2.2.2.1 rfl,
    h1.2.2.2.2.2.1 rfl, h2.2.2.2.2.2.2 "" rfl⟩

/-- C10: `generate_re_engagement_email` is total and, on every failure
path (validation failure, raised API call, raising or falsy response
inspection), returns a string beginning with "Error"; otherwise the lead
validated and the result is the text extracted from a truthy well-formed
response. -/
theorem generate_email_never_raises :
    ∀ (lead : Dict) (api : Except String Json),
      (∃ rest, generate_re_engagement_email lead api = "Error" ++ rest) ∨
      (validate_lead_data lead = true ∧ ∃ resp t, api = Except.ok resp ∧
        extract_generated_text resp = Except.ok (some t) ∧
        generate_re_engagement_email lead api = jsonAsPy t) := by
  intro lead api
  by_cases hv : validate_lead_data lead = true
  · cases api with
    | error e =>
      left
      refine ⟨" generating email: " ++ e, ?_⟩
      have h1 : generate_re_engagement_email lead (Except.error e) =
          "Error generating email: " ++ e := by
        simp [generate_re_engagement_email, hv]
      rw [h1, ← strAppend_assoc]
      have h2 : ("Error" ++ " generating email: ") = "Error generating email: " := by decide
      rw [h2]
    | ok resp =>
      cases hex : extract_generated_text resp with
      | error e =>
        left
        refine ⟨" generating email: " ++ e, ?_⟩
        have h1 : generate_re_engagement_email lead (Except.ok resp) =
            "Error generating email: " ++ e := by
          simp [generate_re_engagement_email, hv, hex]
        rw [h1, ← strAppend_assoc]
        have h2 : ("Error" ++ " generating email: ") = "Error generating email: " := by decide
        rw [h2]
      | ok o =>
        cases o with
        | none =>
          left
          refine ⟨": Gemini API returned an empty or invalid response.", ?_⟩
          have h1 : generate_re_engagement_email lead (Except.ok resp) =
              "Error: Gemini API returned an empty or invalid response." := by
            simp [generate_re_engagement_email, hv, hex]
          rw [h1]; decide
        | some t =>
          right
          refine ⟨hv, resp, t, rfl, hex, ?_⟩
          simp [generate_re_engagement_email, hv, hex]
  · left
    refine ⟨": Missing required lead data (fullName or emailAddress).", ?_⟩
    have h1 : generate_re_engagement_email lead api =
        "Error: Missing required lead data (fullName or emailAddress)." := by
      simp [generate_re_engagement_email, hv]
    rw [h1]; decide

/-! ## Retry executor lemmas and claim C4 -/

theorem addSleeps_nil (t : CallTrace) : addSleeps [] t = t := rfl

theorem prependSleep_addSleeps (d : Nat) (l : List Nat) (t : CallTrace) :
    prependSleep d (addSleeps l t) = addSleeps (d :: l) t := rfl

theorem powList_succ (d k : Nat) : powList d (k + 1) = d :: powList (d * 2) k := by
  unfold powList
  rw [List.range_succ_eq_map, List.map_cons, List.map_map]
  congr 1
  · simp
  · congr 1
    funext j
    simp only [Function.comp_apply, Nat.succ_eq_add_one, pow_succ]
    ring

theorem go_attempts_le (f : Nat → AttemptResult) (retries : Nat) :
    ∀ (fuel i delay : Nat),
      (make_api_call_go f retries fuel i delay).attempts ≤ i + fuel := by
  intro fuel
  induction fuel with
  | zero => intro i delay; simp [make_api_call_go]
  | succ fuel ih =>
    intro i delay
    cases hfi : f i with
    | ok body =>
      simp only [make_api_call_go, hfi]
      show i + 1 ≤ i + (fuel + 1)
      omega
    | httpError st =>
      simp only [make_api_call_go, hfi]
      by_cases hc : (st == 429 && decide (i + 1 < retries)) = true
      · rw [if_pos hc]
        show (make_api_call_go f retries fuel (i + 1) (delay * 2)).attempts ≤ i + (fuel + 1)
        have := ih (i + 1) (delay * 2)
        omega
      · rw [if_neg hc]
        show i + 1 ≤ i + (fuel + 1)
        omega
    | transport =>
      simp only [make_api_call_go, hfi]
      by_cases hc : (decide (i + 1 < retries)) = true
      · rw [if_pos hc]
        show (make_api_call_go f retries fuel (i + 1) (delay * 2)).attempts ≤ i + (fuel + 1)
        have := ih (i + 1) (delay * 2)
        omega
      · rw [if_neg hc]
        show i + 1 ≤ i + (fuel + 1)
        omega

/-- Running the loop through a prefix of `k` retryable attempts (rate
limits or transport failures) accumulates the doubling backoff sleeps and
continues at attempt `i + k` with the doubled delay. -/
theorem go_prefix (f : Nat → AttemptResult) :
    ∀ (k i delay : Nat),
      (∀ j, j < k → f (i + j) = AttemptResult.httpError 429 ∨
        f (i + j) = AttemptResult.transport) →
      i + k ≤ 4 →
      make_api_call_go f 5 (5 - i) i delay =
        addSleeps (powList delay k)
          (make_api_call_go f 5 (5 - (i + k)) (i + k) (delay * 2 ^ k)) := by
  intro k
  induction k with
  | zero =>
    intro i delay _ _
    simp [powList, addSleeps_nil]
  | succ k ih =>
    intro i delay hpre hle
    have h0 : f i = AttemptResult.httpError 429 ∨ f i = AttemptResult.transport := by
      have := hpre 0 (Nat.succ_pos k)
      simpa using this
    have hstep : make_api_call_go f 5 (5 - i) i delay =
        prependSleep delay (make_api_call_go f 5 (5 - (i + 1)) (i + 1) (delay * 2)) := by
      have hfuel : 5 - i = (5 - (i + 1)) + 1 := by omega
      rw [hfuel]
      have hlt : i + 1 < 5 := by omega
      rcases h0 with h0 | h0 <;> simp [make_api_call_go, h0, hlt]
    have hpre' : ∀ j, j < k → f (i + 1 + j) = AttemptResult.httpError 429 ∨
        f (i + 1 + j) = AttemptResult.transport := by
      intro j hj
      have h := hpre (j + 1) (by omega)
      have he : i + (j + 1) = i + 1 + j := by omega
      rw [he] at h
      exact h
    have hle' : i + 1 + k ≤ 4 := by omega
    rw [hstep, ih (i + 1) (delay * 2) hpre' hle', prependSleep_addSleeps, ← powList_succ]
    have e1 : i + 1 + k = i + (k + 1) := by omega
    have e2 : delay * 2 * 2 ^ k = delay * 2 ^ (k + 1) := by ring
    rw [e1, e2]

/-- A successful attempt at index `i` returns its body immediately. -/
theorem go_success (f : Nat → AttemptResult) (i delay : Nat) (b : Json)
    (hi : i < 5) (hb : f i = AttemptResult.ok b) :
    make_api_call_go f 5 (5 - i) i delay = ⟨Except.ok (some b), i + 1, []⟩ := by
  have hfuel : 5 - i = (5 - (i + 1)) + 1 := by omega
  rw [hfuel]
  simp [make_api_call_go, hb]

/-- An HTTP error at index `i` whose retry condition is false propagates
immediately. -/
theorem go_http_stop (f : Nat → AttemptResult) (i delay st : Nat)
    (hi : i < 5) (hb : f i = AttemptResult.httpError st)
    (hcond : (st == 429 && decide (i + 1 < 5)) = false) :
    make_api_call_go f 5 (5 - i) i delay =
      ⟨Except.error (CallError.httpError st), i + 1, []⟩ := by
  have hfuel : 5 - i = (5 - (i + 1)) + 1 := by omega
  rw [hfuel]
  simp [make_api_call_go, hb, hcond]

/-- C4: the retry executor makes at most 5 attempts; after a prefix of
`k` retryable attempts (status 429 or transport failure) a success at
attempt `k + 1` returns its body with sleeps 1, 2, ..., 2^(k-1), a
non-429 HTTP error propagates immediately with those same sleeps, and
five straight rate limits raise the last error after exactly 5 attempts
with sleeps 1, 2, 4, 8. -/
theorem retry_executor_policy :
    ∀ f : Nat → AttemptResult,
      (make_api_call f).attempts ≤ 5 ∧
      (∀ k b, k < 5 →
        (∀ j, j < k → f j = AttemptResult.httpError 429 ∨ f j = AttemptResult.transport) →
        f k = AttemptResult.ok b →
        (make_api_call f).result = Except.ok (some b) ∧
        (make_api_call f).attempts = k + 1 ∧
        (make_api_call f).sleeps = powList 1 k) ∧
      (∀ k st, k < 5 →
        (∀ j, j < k → f j = AttemptResult.httpError 429 ∨ f j = AttemptResult.transport) →
        f k = AttemptResult.httpError st → st ≠ 429 →
        (make_api_call f).result = Except.error (CallError.httpError st) ∧
        (make_api_call f).attempts = k + 1 ∧
        (make_api_call f).sleeps = powList 1 k) ∧
      ((∀ i, i < 5 → f i = AttemptResult.httpError 429) →
        (make_api_call f).result = Except.error (CallError.httpError 429) ∧
        (make_api_call f).attempts = 5 ∧
        (make_api_call f).sleeps = [1, 2, 4, 8]) := by
  intro f
  refine ⟨?_, ?_, ?_, ?_⟩
  · have h := go_attempts_le f 5 5 0 1
    simpa [make_api_call] using h
  · intro k b hk hpre hb
    have hpre0 : ∀ j, j < k → f (0 + j) = AttemptResult.httpError 429 ∨
        f (0 + j) = AttemptResult.transport := by
      intro j hj; simpa using hpre j hj
    have h1 := go_prefix f k 0 1 hpre0 (by omega)
    have h1' : make_api_call f =
        addSleeps (powList 1 k) (make_api_call_go f 5 (5 - k) k (1 * 2 ^ k)) := by
      simpa [make_api_call] using h1
    rw [h1', go_success f k (1 * 2 ^ k) b hk hb]
    exact ⟨rfl, rfl, by simp [addSleeps]⟩
  · intro k st hk hpre hb hst
    have hpre0 : ∀ j, j < k → f (0 + j) = AttemptResult.httpError 429 ∨
        f (0 + j) = AttemptResult.transport := by
      intro j hj; simpa using hpre j hj
    have h1 := go_prefix f k 0 1 hpre0 (by omega)
    have h1' : make_api_call f =
        addSleeps (powList 1 k) (make_api_call_go f 5 (5 - k) k (1 * 2 ^ k)) := by
      simpa [make_api_call] using h1
    have hb429 : (st == 429) = false := beq_eq_false_iff_ne.mpr hst
    have hcond : (st == 429 && decide (k + 1 < 5)) = false := by simp [hb429]
    rw [h1', go_http_stop f k (1 * 2 ^ k) st hk hb hcond]
    exact ⟨rfl, rfl, by simp [addSleeps]⟩
  · intro hall
    have hpre0 : ∀ j, j < 4 → f (0 + j) = AttemptResult.httpError 429 ∨
        f (0 + j) = AttemptResult.transport := by
      intro j hj
      left
      simpa using hall j (by omega)
    have h1 := go_prefix f 4 0 1 hpre0 (by omega)
    have h1' : make_api_call f =
        addSleeps (powList 1 4) (make_api_call_go f 5 (5 - 4) 4 (1 * 2 ^ 4)) := by
      simpa [make_api_call] using h1
    have hcond : ((429 : Nat) == 429 && decide (4 + 1 < 5)) = false := by decide
    rw [h1', go_http_stop f 4 (1 * 2 ^ 4) 429 (by omega) (hall 4 (by omega)) hcond]
    refine ⟨rfl, rfl, ?_⟩
    show powList 1 4 ++ [] = [1, 2, 4, 8]
    decide

/-- C4 witness: two rate limits then a success returns the body on the
3rd attempt with total simulated backoff 1 + 2 = 3; constant rate limits
raise after exactly 5 attempts with sleeps 1, 2, 4, 8; a 500 propagates
on the 1st attempt. -/
theorem retry_executor_policy_witness :
    (make_api_call f429twice).result = Except.ok (some Json.jnull) ∧
    (make_api_call f429twice).attempts = 3 ∧
    (make_api_call f429twice).sleeps = [1, 2] ∧
    (make_api_call f429twice).sleeps.sum = 3 ∧
    (make_api_call fAlways429).result = Except.error (CallError.httpError 429) ∧
    (make_api_call fAlways429).attempts = 5 ∧
    (make_api_call fAlways429).sleeps = [1, 2, 4, 8] ∧
    (make_api_call f500).result = Except.error (CallError.httpError 500) ∧
    (make_api_call f500).attempts = 1 := by
  have hs := (retry_executor_policy f429twice).2.1 2 Json.jnull (by omega)
    (by intro j hj; left; interval_cases j <;> rfl) rfl
  have ha := (retry_executor_policy fAlways429).2.2.2 (fun i _ => rfl)
  have h50 := (retry_executor_policy f500).2.2.1 0 500 (by omega)
    (by intro j hj; exact absurd hj (Nat.not_lt_zero j)) rfl (by omega)
  refine ⟨hs.1, hs.2.1, ?_, ?_, ha.1, ha.2.1, ha.2.2, h50.1, h50.2.1⟩
  · rw [hs.2.2]; decide
  · rw [hs.2.2]; decide
